import Mathlib

/-!
Shallow embedding of the linkedin-stats scraper, covering:
the cookie loader and CSRF-token helper (src/features/linkedin-scraper/auth.ts),
the parallel orchestrator join (src/features/linkedin-scraper/index.ts),
the content/audience/demographic extractors, and the $RUN_AUTH handler
(src/features/linkedin-auth/index.ts).

JavaScript numbers are modelled as exact rationals (integers where the code
only ever produces integers); a NaN produced by parseInt or parseFloat is
modelled as `Option.none`.  File-system reads and JSON.parse are abstracted
into the `CookieFile` type: a path either has no file, an unparseable file,
or a file parsing to a structured `Json` value.
-/

/-- Parsed JSON values, as produced by JSON.parse.  Object fields keep their
textual order; a duplicated key is resolved by `jget` to its last occurrence,
matching the JavaScript object that JSON.parse builds. -/
inductive Json where
  | jnull
  | jbool (b : Bool)
  | jnum (q : ℚ)
  | jstr (s : String)
  | jarr (elems : List Json)
  | jobj (fields : List (String × Json))
deriving Repr

/-- Property read on a parsed JSON object: the last binding of the key wins,
as in the object JSON.parse constructs. -/
def jget (fields : List (String × Json)) (k : String) : Option Json :=
  ((fields.filter (fun p => p.1 == k)).getLast?).map (fun p => p.2)

/-- A required z.string() field: present and a string, else the schema fails. -/
def reqStringField (fields : List (String × Json)) (k : String) : Option String :=
  match jget fields k with
  | some (.jstr s) => some s
  | _ => none

/-- An optional z.string() field: absent is fine (inner none); present must be
a string or the schema fails (outer none). -/
def optStringField (fields : List (String × Json)) (k : String) : Option (Option String) :=
  match jget fields k with
  | none => some none
  | some (.jstr s) => some (some s)
  | some _ => none

/-- An optional z.number() field. -/
def optNumField (fields : List (String × Json)) (k : String) : Option (Option ℚ) :=
  match jget fields k with
  | none => some none
  | some (.jnum q) => some (some q)
  | some _ => none

/-- An optional z.boolean() field. -/
def optBoolField (fields : List (String × Json)) (k : String) : Option (Option Bool) :=
  match jget fields k with
  | none => some none
  | some (.jbool b) => some (some b)
  | some _ => none

/-- The LinkedInCookies record of types.ts: li_at required, the rest optional
(absent keys are absent, per exactOptionalPropertyTypes). -/
structure LinkedInCookies where
  li_at : String
  JSESSIONID : Option String := none
  liap : Option String := none
  li_rm : Option String := none
deriving Repr, DecidableEq

/-- One entry of the Playwright Cookie[] shape, as validated by
PlaywrightCookieSchema in auth.ts: name and value required strings, the rest
optional; unknown keys are ignored (zod strips them). -/
structure PwCookie where
  name : String
  value : String
  domain : Option String := none
  path : Option String := none
  expires : Option ℚ := none
  httpOnly : Option Bool := none
  secure : Option Bool := none
  sameSite : Option String := none
deriving Repr, DecidableEq

/-- PlaywrightCookieSchema.safeParse on one array element. -/
def pwCookieParse : Json → Option PwCookie
  | .jobj fields => do
      let name ← reqStringField fields "name"
      let value ← reqStringField fields "value"
      let domain ← optStringField fields "domain"
      let path ← optStringField fields "path"
      let expires ← optNumField fields "expires"
      let httpOnly ← optBoolField fields "httpOnly"
      let secure ← optBoolField fields "secure"
      let sameSite ← optStringField fields "sameSite"
      pure { name, value, domain, path, expires, httpOnly, secure, sameSite }
  | _ => none

/-- SimpleCookiesSchema.safeParse of auth.ts: li_at a string of length at least
one (z.string().min(1)), the three optional fields strings when present. -/
def simpleCookiesParse : Json → Option LinkedInCookies
  | .jobj fields => do
      let li ← reqStringField fields "li_at"
      if 1 ≤ li.length then
        let js ← optStringField fields "JSESSIONID"
        let lp ← optStringField fields "liap"
        let lr ← optStringField fields "li_rm"
        pure { li_at := li, JSESSIONID := js, liap := lp, li_rm := lr }
      else none
  | _ => none

/-- Lookup in the Map built by new Map(entries): get returns the value of the
last entry inserted under the key. -/
def mapGet (pairs : List (String × String)) (k : String) : Option String :=
  ((pairs.filter (fun p => p.1 == k)).getLast?).map (fun p => p.2)

/-- The state of the cookie file at the given path: absent, present but not
valid JSON, or present and parsing to a Json value. -/
inductive CookieFile where
  | absent
  | unparseable
  | parsed (j : Json)
deriving Repr

/-- The four throw sites of loadCookies in auth.ts, by their messages:
"Cookie file not found", "Cookie file is not valid JSON",
"Cookie file is missing required li_at cookie" (array shape), and
"Cookie file validation failed" (zod schema failure in either shape). -/
inductive CookieLoadError where
  | fileNotFound
  | invalidJson
  | arrayValidationFailed
  | missingLiAt
  | objectValidationFailed
deriving Repr, DecidableEq

/-- loadCookies of src/features/linkedin-scraper/auth.ts (lines 55-116):
check existence, parse JSON, then branch on Array.isArray.  The array branch
validates every entry against the Playwright cookie schema, builds a name to
value map, and requires a non-empty li_at; the object branch applies the
simple-object schema.  The JS test (!li_at || li_at.length === 0) is true
exactly when li_at is absent or the empty string. -/
def loadCookies : CookieFile → Except CookieLoadError LinkedInCookies
  | .absent => .error .fileNotFound
  | .unparseable => .error .invalidJson
  | .parsed (.jarr elems) =>
      match elems.mapM pwCookieParse with
      | none => .error .arrayValidationFailed
      | some data =>
          let byName := data.map (fun c => (c.name, c.value))
          match mapGet byName "li_at" with
          | none => .error .missingLiAt
          | some v =>
              if v.length = 0 then .error .missingLiAt
              else .ok { li_at := v, JSESSIONID := mapGet byName "JSESSIONID",
                         liap := mapGet byName "liap", li_rm := mapGet byName "li_rm" }
  | .parsed j =>
      match simpleCookiesParse j with
      | some ck => .ok ck
      | none => .error .objectValidationFailed

/-- Line terminators excluded by the dot of a JavaScript regular expression. -/
def jsLineTerm (c : Char) : Bool :=
  c = '\n' || c = '\r' || c = ' ' || c = ' '

/-- Whether /^"(.*)"$/ matches: at least two characters, first and last a
double quote, and no line terminator strictly inside (JS dot excludes them). -/
def csrfQuoted (cs : List Char) : Bool :=
  decide (2 ≤ cs.length) && cs.head? == some '"' && cs.getLast? == some '"'
    && ((cs.drop 1).dropLast.all fun c => !jsLineTerm c)

/-- extractCsrfToken of auth.ts (lines 123-127):
jsessionid.replace of the pattern quote, capture, quote with the capture,
which strips one pair of surrounding double quotes when the whole string
matches and returns the string unchanged otherwise. -/
def extractCsrfToken (jsessionid : String) : String :=
  if csrfQuoted jsessionid.data then String.mk ((jsessionid.data.drop 1).dropLast)
  else jsessionid

/-- One daily chart point (types.ts DailyMetric).  The value comes from
parseInt on the digits-and-commas capture; none models a NaN value (possible
only when the capture consists of commas alone). -/
structure DailyMetric where
  date : String
  value : Option ℕ
deriving Repr, DecidableEq

/-- ContentAnalytics of types.ts; totals and rate are JS numbers, with none
for NaN. -/
structure ContentAnalytics where
  impressions : List DailyMetric
  engagements : List DailyMetric
  totalImpressions : Option ℕ
  totalEngagements : Option ℕ
  engagementRate : Option ℚ
  capturedAt : String
deriving Repr, DecidableEq

/-- AudienceAnalytics of types.ts. -/
structure AudienceAnalytics where
  followerGrowth : List DailyMetric
  lifetimeFollowerCount : ℕ
  capturedAt : String
deriving Repr, DecidableEq

/-- DemographicEntry of types.ts; count is always written as 0 by the
extractor, percentage is a parseFloat result (none for NaN). -/
structure DemographicEntry where
  label : String
  count : ℕ
  percentage : Option ℚ
deriving Repr, DecidableEq

/-- DemographicAnalytics of types.ts. -/
structure DemographicAnalytics where
  industries : List DemographicEntry
  jobTitles : List DemographicEntry
  locations : List DemographicEntry
  functions : List DemographicEntry
  seniorities : List DemographicEntry
  capturedAt : String
deriving Repr, DecidableEq

/-- LinkedInAnalyticsResult of types.ts: the aggregate built by the parallel
orchestrator; null categories are none. -/
structure LinkedInAnalyticsResult where
  content : Option ContentAnalytics
  audience : Option AudienceAnalytics
  demographics : Option DemographicAnalytics
  scrapedAt : String
  errors : List String
deriving Repr, DecidableEq

/-- One entry of the Promise.allSettled result: fulfilled with a value, or
rejected with String(reason). -/
inductive Settled (α : Type) where
  | fulfilled (value : α)
  | rejected (reason : String)
deriving Repr, DecidableEq

/-- Whether a settled outcome is rejected. -/
def Settled.isRejected {α : Type} : Settled α → Bool
  | .fulfilled _ => false
  | .rejected _ => true

/-- The fulfilled value, if any (the null-on-failure projection of the
orchestrator). -/
def Settled.toOption {α : Type} : Settled α → Option α
  | .fulfilled v => some v
  | .rejected _ => none

/-- The join step of scrapeLinkedInAnalytics (index.ts lines 73-91): after
Promise.allSettled delivers the three outcomes in positional order, push one
tagged message per rejected category (content, then audience, then
demographics) and build the combined result with null for rejected
categories.  scrapedAt is the timestamp taken at the join. -/
def scrapeLinkedInAnalyticsJoin
    (contentResult : Settled ContentAnalytics)
    (audienceResult : Settled AudienceAnalytics)
    (demographicsResult : Settled DemographicAnalytics)
    (scrapedAt : String) : LinkedInAnalyticsResult :=
  let errors : List String :=
    (match contentResult with
      | .rejected reason => ["content: " ++ reason]
      | .fulfilled _ => []) ++
    (match audienceResult with
      | .rejected reason => ["audience: " ++ reason]
      | .fulfilled _ => []) ++
    (match demographicsResult with
      | .rejected reason => ["demographics: " ++ reason]
      | .fulfilled _ => [])
  { content := contentResult.toOption
    audience := audienceResult.toOption
    demographics := demographicsResult.toOption
    scrapedAt := scrapedAt
    errors := errors }

/-- Prefix test on character lists, used to state which category tag an error
message carries. -/
def chPrefix : List Char → List Char → Bool
  | [], _ => true
  | _ :: _, [] => false
  | c :: cs, d :: ds => c == d && chPrefix cs ds

/-- Whether an error message starts with the given category tag. -/
def taggedWith (tag e : String) : Bool :=
  chPrefix tag.data e.data

/-- Digit-run to number, as parseInt accumulates base-10 digits. -/
def digitsToNat (ds : List Char) : ℕ :=
  ds.foldl (fun n c => 10 * n + (c.toNat - '0'.toNat)) 0

/-- parseInt(s, 10) restricted to the inputs the scrapers feed it (strings of
decimal digits, possibly empty after comma-stripping): the leading digit run
is read, and an empty run is NaN (none). -/
def jsParseIntDec (s : String) : Option ℕ :=
  let ds := s.data.takeWhile Char.isDigit
  if ds.isEmpty then none else some (digitsToNat ds)

/-- s.replace of all commas with the empty string. -/
def stripCommas (s : String) : String :=
  String.mk (s.data.filter (fun c => c ≠ ','))

/-- The test /^[\d,]+$/: non-empty and every character a decimal digit or a
comma. -/
def isFormattedInt (s : String) : Bool :=
  !s.data.isEmpty && s.data.all (fun c => c.isDigit || c == ',')

/-- String.prototype.trim: drop whitespace and line terminators from both
ends (written over the character list so that it evaluates by kernel
reduction). -/
def jsTrim (s : String) : String :=
  String.mk (((s.data.dropWhile Char.isWhitespace).reverse.dropWhile
    Char.isWhitespace).reverse)

/-- extractLifetimeFollowerCount of audience-analytics.ts (lines 98-116),
with the rendered page abstracted to the list of textContent strings of its
paragraph-like nodes (querySelectorAll order): trim each text, keep those
matching /^[\d,]+$/, parse after comma-stripping, and track the largest
non-NaN value starting from 0. -/
def extractLifetimeFollowerCount (paragraphTexts : List String) : ℕ :=
  paragraphTexts.foldl
    (fun largest rawText =>
      let text := jsTrim rawText
      if isFormattedInt text then
        match jsParseIntDec (stripCommas text) with
        | some value => if largest < value then value else largest
        | none => largest
      else largest)
    0

/-- The candidate values the source scans over: trimmed texts that are purely
digits and commas, parsed by stripping commas (none dropped as NaN). -/
def lifetimeCandidates (paragraphTexts : List String) : List ℕ :=
  paragraphTexts.filterMap (fun rawText =>
    let text := jsTrim rawText
    if isFormattedInt text then jsParseIntDec (stripCommas text) else none)

/-- JS whitespace class for regex purposes, modelled by Char.isWhitespace. -/
def jsWhitespace (c : Char) : Bool := c.isWhitespace

/-- The JS word class: ASCII letters, decimal digits and underscore. -/
def isWordChar (c : Char) : Bool :=
  (('a' ≤ c && c ≤ 'z') || ('A' ≤ c && c ≤ 'Z') || c.isDigit || c = '_')

/-- Take a non-empty maximal run of characters satisfying p (the greedy +
quantifier over a character class whose follower is outside the class). -/
def takeRun1 (p : Char → Bool) (cs : List Char) : Option (List Char × List Char) :=
  let run := cs.takeWhile p
  if run.isEmpty then none else some (run, cs.dropWhile p)

/-- Consume one expected literal character. -/
def expectChar (c : Char) : List Char → Option (List Char)
  | d :: rest => if d = c then some rest else none
  | [] => none

/-- The leading index of the chart-label pattern: digits, a dot, whitespace. -/
def chartIndexPart (cs : List Char) : Option (List Char) := do
  let (_, cs) ← takeRun1 Char.isDigit cs
  let cs ← expectChar '.' cs
  let (_, cs) ← takeRun1 jsWhitespace cs
  pure cs

/-- The weekday of the chart-label pattern: a word, a comma, whitespace. -/
def chartWeekdayPart (cs : List Char) : Option (List Char) := do
  let (_, cs) ← takeRun1 isWordChar cs
  let cs ← expectChar ',' cs
  let (_, cs) ← takeRun1 jsWhitespace cs
  pure cs

/-- The month-day-year shape shared by the date capture and the Date
constructor: word, space, digits, comma, space, exactly four digits.
Returns the three components and the unconsumed rest. -/
def mdyParse (cs : List Char) : Option ((List Char × List Char × List Char) × List Char) := do
  let (monthWord, cs) ← takeRun1 isWordChar cs
  let cs ← expectChar ' ' cs
  let (dayDigits, cs) ← takeRun1 Char.isDigit cs
  let cs ← expectChar ',' cs
  let cs ← expectChar ' ' cs
  let yearDigits := cs.take 4
  if yearDigits.length = 4 && yearDigits.all Char.isDigit then
    pure ((monthWord, dayDigits, yearDigits), cs.drop 4)
  else none

/-- The date capture of the chart-label pattern: the matched substring of the
month-day-year shape, together with the rest of the label. -/
def chartDateCapture (cs : List Char) : Option (List Char × List Char) :=
  (mdyParse cs).map (fun p =>
    (p.1.1 ++ ' ' :: (p.1.2.1 ++ ',' :: ' ' :: p.1.2.2), p.2))

/-- The metric-name segment of the chart-label pattern: comma, whitespace, a
non-comma run, comma, whitespace. -/
def chartMetricPart (cs : List Char) : Option (List Char) := do
  let cs ← expectChar ',' cs
  let (_, cs) ← takeRun1 jsWhitespace cs
  let (_, cs) ← takeRun1 (fun c => c ≠ ',') cs
  let cs ← expectChar ',' cs
  let (_, cs) ← takeRun1 jsWhitespace cs
  pure cs

/-- Structural translation of the chart-label pattern of content-analytics.ts
line 91 and audience-analytics.ts line 70, anchored at the start only; each
greedy character class is followed by a character outside the class, so the
greedy run without backtracking is the regex behaviour.  Returns the two
captured substrings (raw date, raw value). -/
def chartLabelMatch (s : String) : Option (String × String) := do
  let cs ← chartIndexPart s.data
  let cs ← chartWeekdayPart cs
  let (rawDate, cs) ← chartDateCapture cs
  let cs ← chartMetricPart cs
  let (valueChars, _) ← takeRun1 (fun c => c.isDigit || c = ',') cs
  pure (String.mk rawDate, String.mk valueChars)

/-- label.includes(sub): substring occurrence anywhere. -/
def strIncludes (label sub : String) : Bool :=
  decide (sub.data <:+: label.data)

/-- Month names recognised by the V8 date parser: a word of at least three
letters that is a prefix of a full English month name. -/
def monthNames : List (String × ℕ) :=
  [("january", 1), ("february", 2), ("march", 3), ("april", 4), ("may", 5),
   ("june", 6), ("july", 7), ("august", 8), ("september", 9), ("october", 10),
   ("november", 11), ("december", 12)]

/-- Lowercase a string character by character (toLowerCase on the ASCII data
the scrapers handle). -/
def toLowerStr (s : String) : String :=
  String.mk (s.data.map Char.toLower)

/-- Resolve a month word to its number the way the V8 parser does: case
insensitive, at least three characters, a prefix of the full name.  "may"
is a full name of length three. -/
def monthNum (w : String) : Option ℕ :=
  let lw := toLowerStr w
  if 3 ≤ lw.length then
    (monthNames.find? (fun p => lw.data.isPrefixOf p.1.data)).map (fun p => p.2)
  else none

/-- Gregorian leap-year rule, as used by the JS Date object. -/
def isLeapYear (y : ℕ) : Bool :=
  (y % 4 = 0 && y % 100 ≠ 0) || y % 400 = 0

/-- Days in a month for date validation (V8 yields Invalid Date for an
out-of-range day such as Feb 30). -/
def daysInMonth (m y : ℕ) : ℕ :=
  if m = 2 then (if isLeapYear y then 29 else 28)
  else if m = 4 || m = 6 || m = 9 || m = 11 then 30
  else 31

/-- Left-pad a numeral with zeros to the given width. -/
def padNum (width n : ℕ) : String :=
  let s := toString n
  String.mk (List.replicate (width - s.length) '0') ++ s

/-- new Date(rawDate).toISOString().slice(0, 10) for a capture of the shape
word, space, digits, comma, space, four digits.  The date is interpreted at
local midnight in the browser context, whose timezone is fixed to
America/New_York by createBrowserSession, so the UTC calendar date equals
the parsed one; an unrecognised month or out-of-range day is Invalid Date
(none). -/
def jsDateToIso (s : String) : Option String := do
  let (mdy, rest) ← mdyParse s.data
  if !rest.isEmpty then none
  else do
    let m ← monthNum (String.mk mdy.1)
    let day := digitsToNat mdy.2.1
    let year := digitsToNat mdy.2.2
    if 1 ≤ day && day ≤ daysInMonth m year then
      pure (padNum 4 year ++ "-" ++ padNum 2 m ++ "-" ++ padNum 2 day)
    else none

/-- extractChartData of content-analytics.ts (lines 80-111), with the page
abstracted to the aria-label strings of its role img elements in document
order: keep labels containing the metric name verbatim, match the label
pattern, convert the date capture, parse the value capture with commas
stripped (no NaN guard at this site), and collect the points in order. -/
def extractChartData (ariaLabels : List String) (metric : String) : List DailyMetric :=
  ariaLabels.filterMap (fun label =>
    if !strIncludes label metric then none
    else
      match chartLabelMatch label with
      | none => none
      | some (rawDate, rawValue) =>
          match jsDateToIso rawDate with
          | none => none
          | some date => some { date := date, value := jsParseIntDec (stripCommas rawValue) })

/-- The running sum of reduce((sum, m) => sum + m.value, 0): a NaN value
poisons the total, exactly as JS addition with NaN does. -/
def jsSumValues (ms : List DailyMetric) : Option ℕ :=
  ms.foldl
    (fun sum m =>
      match sum, m.value with
      | some s, some v => some (s + v)
      | _, _ => none)
    (some 0)

/-- Math.round: half-up rounding toward positive infinity, NaN preserved. -/
def jsMathRound (x : Option ℚ) : Option ℤ :=
  x.map (fun q => ⌊q + 1 / 2⌋)

/-- The quotient totalEngagements / totalImpressions as JS evaluates it under
the positivity guard of line 59 (the guard is false on NaN or zero, so the
denominator is a positive integer whenever the division runs). -/
def jsDivTotals (e i : Option ℕ) : Option ℚ :=
  match e, i with
  | some ev, some iv => some ((ev : ℚ) / (iv : ℚ))
  | _, _ => none

/-- The JS comparison totalImpressions > 0 (false on NaN). -/
def jsGtZero : Option ℕ → Bool
  | some n => decide (0 < n)
  | none => false

/-- The result-assembly tail of scrapeContentAnalytics (content-analytics.ts
lines 56-68): totals as reduce-sums of each series, and engagementRate as
Math.round(engagements / impressions * 10000) / 100 when the impressions
total is positive, 0 otherwise. -/
def scrapeContentAnalyticsCombine
    (impressions engagements : List DailyMetric) (capturedAt : String) : ContentAnalytics :=
  let totalImpressions := jsSumValues impressions
  let totalEngagements := jsSumValues engagements
  let engagementRate : Option ℚ :=
    if jsGtZero totalImpressions then
      (jsMathRound ((jsDivTotals totalEngagements totalImpressions).map (fun q => q * 10000))).map
        (fun z => (z : ℚ) / 100)
    else some 0
  { impressions := impressions
    engagements := engagements
    totalImpressions := totalImpressions
    totalEngagements := totalEngagements
    engagementRate := engagementRate
    capturedAt := capturedAt }

/-- Rounding a number to two decimal places (the notion used by the
specification): half-up round of 100 times the value, divided by 100, with
NaN preserved. -/
def roundTo2 (x : Option ℚ) : Option ℚ :=
  (jsMathRound (x.map (fun q => q * 100))).map (fun z => (z : ℚ) / 100)

/-- parseFloat restricted to the strings the percentage capture can produce
(non-empty runs of digits and dots): the leading digits, then one dot and
the following digits; no digit at all before the scan stops is NaN. -/
def jsParseFloat (s : String) : Option ℚ :=
  let intPart := s.data.takeWhile Char.isDigit
  let rest := s.data.dropWhile Char.isDigit
  let fracPart :=
    match rest with
    | '.' :: tail => tail.takeWhile Char.isDigit
    | _ => []
  if intPart.isEmpty && fracPart.isEmpty then none
  else some ((digitsToNat intPart : ℚ) +
    (digitsToNat fracPart : ℚ) / ((10 : ℚ) ^ fracPart.length))

/-- The test /^([\d.]+)%$/ of the demographic browser script: the whole line
is a non-empty run of digits and dots followed by a percent sign; returns
the capture. -/
def pctMatch (s : String) : Option String :=
  match s.data.getLast? with
  | some '%' =>
      let body := s.data.dropLast
      if !body.isEmpty && body.all (fun c => c.isDigit || c = '.') then
        some (String.mk body)
      else none
  | _ => none

/-- matchSection of the demographic browser script: the first
Object.entries(sectionHeaders) pair whose keyword occurs in the lowercased
line, returning its key. -/
def matchSection (sectionHeaders : List (String × String)) (line : String) : Option String :=
  let lower := toLowerStr line
  sectionHeaders.findSome? (fun e =>
    if decide (e.2.data <:+: lower.data) then some e.1 else none)

/-- isStopLine of the demographic browser script: some stop keyword sits at
index 0 of the lowercased line. -/
def isStopLine (stopKeywords : List String) (line : String) : Bool :=
  let lower := toLowerStr line
  stopKeywords.any (fun k => k.data.isPrefixOf lower.data)

/-- Whether the sections object carries the key (the truthiness guard before
the push). -/
def hasKey (sections : List (String × List DemographicEntry)) (k : String) : Bool :=
  sections.any (fun p => p.1 == k)

/-- sections[k].push(e): append at the end of the bucket stored under k. -/
def pushEntry (sections : List (String × List DemographicEntry)) (k : String)
    (e : DemographicEntry) : List (String × List DemographicEntry) :=
  sections.map (fun p => if p.1 == k then (p.1, p.2 ++ [e]) else p)

/-- The scanning while-loop of BROWSER_SCRIPT in demographic-analytics.ts
(lines 222-250 of the concatenated source), over the non-empty trimmed
lines: a section-header line switches the current section and advances one
line; inside a section a stop line closes it and advances one line; a line
whose successor matches the percentage pattern is pushed as a label with
parseFloat of the capture and the scan advances two lines; anything else
advances exactly one line.  The final line reads its successor as the empty
string, which never matches the percentage pattern. -/
def scanLoop (sectionHeaders : List (String × String)) (stopKeywords : List String) :
    List (String × List DemographicEntry) → Option String → List String →
    List (String × List DemographicEntry)
  | sections, _, [] => sections
  | sections, currentSection, line :: rest =>
    match matchSection sectionHeaders line with
    | some k => scanLoop sectionHeaders stopKeywords sections (some k) rest
    | none =>
      match currentSection with
      | some cur =>
        if isStopLine stopKeywords line then
          scanLoop sectionHeaders stopKeywords sections none rest
        else
          match pctMatch (rest.headD "") with
          | some body =>
              let sections2 :=
                if hasKey sections cur then
                  pushEntry sections cur
                    { label := line, count := 0, percentage := jsParseFloat body }
                else sections
              scanLoop sectionHeaders stopKeywords sections2 (some cur) (rest.drop 1)
          | none => scanLoop sectionHeaders stopKeywords sections (some cur) rest
      | none => scanLoop sectionHeaders stopKeywords sections currentSection rest
termination_by _secs _cur lines => lines.length
decreasing_by all_goals (simp [List.length_drop]; try omega)

/-- The SECTION_HEADERS constant of demographic-analytics.ts, in its source
order. -/
def sectionHeadersSrc : List (String × String) :=
  [("jobTitles", "job title"), ("locations", "location"),
   ("industries", "industr"), ("seniorities", "seniorit")]

/-- The STOP_KEYWORDS constant of demographic-analytics.ts. -/
def stopKeywordsSrc : List String :=
  ["company size", "function", "demographics of"]

/-- The initial sections object: one empty bucket per section-header key. -/
def initSections (sectionHeaders : List (String × String)) :
    List (String × List DemographicEntry) :=
  sectionHeaders.map (fun e => (e.1, []))

/-- The whole browser script on the rendered body text split into lines:
trim, drop empties, then scan from no current section. -/
def browserScriptRun (sectionHeaders : List (String × String)) (stopKeywords : List String)
    (lines : List String) : List (String × List DemographicEntry) :=
  let trimmed := (lines.map jsTrim).filter (fun t => 0 < t.length)
  scanLoop sectionHeaders stopKeywords (initSections sectionHeaders) none trimmed

/-- loadCookies of the linkedin-auth feature (src/features/linkedin-auth/
index.ts lines 234-244): null when the file is absent, unreadable or not
JSON, null when the parsed value is not an array or is empty, otherwise the
raw array, cast to Cookie[] without validation. -/
def loadCookiesAuthFeature : CookieFile → Option (List Json)
  | .absent => none
  | .unparseable => none
  | .parsed (.jarr []) => none
  | .parsed (.jarr (e :: es)) => some (e :: es)
  | .parsed _ => none

/-- The states the $RUN_AUTH handler steps through, named after the
authentication state machine of the design. -/
inductive AuthStep where
  | cookieRestoreAttempt
  | cookiesRejected
  | credentialLoginAttempt
  | challengeDetected
  | interactiveChallenge
  | interactiveManualLogin
deriving Repr, DecidableEq

/-- Which of the handler's paths produced the authenticated session. -/
inductive AuthPath where
  | cookieRestore
  | credentialLogin
  | challengeResolution
  | manualLogin
deriving Repr, DecidableEq

/-- The terminal outcome of the handler: authenticated through one of the
paths, or one of its three distinct thrown errors (bad-credential login
failure, security-challenge timeout, manual-login timeout). -/
inductive AuthOutcome where
  | authenticated (path : AuthPath)
  | loginFailed
  | challengeTimeout
  | manualLoginTimeout
deriving Repr, DecidableEq

/-- Handler configuration read through getConfig: the optional username and
password (empty string when unset). -/
structure AuthConfig where
  username : String
  password : String
deriving Repr, DecidableEq

/-- The oracle for the handler's interactions with the outside world: the
cookie file at linkedin.cookiePath, the validateSession verdict on the
restored session, whether the credential-login wait reaches the feed, the
page URL inspected after that wait times out, whether the headed challenge
wait and the manual-login wait reach the feed, and the cookie jar
browserContext.cookies() reports when the handler saves it. -/
structure AuthEnv where
  cookieFile : CookieFile
  sessionValid : Bool
  credentialWaitOk : Bool
  urlAfterTimeout : String
  challengeWaitOk : Bool
  manualWaitOk : Bool
  contextCookies : List PwCookie
deriving Repr

/-- What the handler did: its terminal outcome, the jar written through
saveCookiesFromContext (none when nothing was written), whether
linkedin.page and linkedin.authenticated were published, whether a headed
browser was relaunched, and the steps visited in order. -/
structure AuthResult where
  outcome : AuthOutcome
  savedJar : Option (List PwCookie)
  publishedPage : Bool
  publishedAuthenticated : Bool
  relaunchedHeaded : Bool
  visited : List AuthStep
deriving Repr, DecidableEq

/-- loginWithCredentials together with handleSecurityChallenge
(linkedin-auth index.ts lines 108-173), as outcome plus visited steps: a
successful feed wait returns a page; on timeout a checkpoint or challenge
URL routes to the headed challenge flow, anything else throws the
login-failed error; the challenge flow authenticates when its own feed wait
succeeds and throws the challenge-timeout error otherwise. -/
def loginWithCredentialsRun (env : AuthEnv) : AuthOutcome × List AuthStep × Bool :=
  if env.credentialWaitOk then
    (.authenticated .credentialLogin, [.credentialLoginAttempt], false)
  else if strIncludes env.urlAfterTimeout "checkpoint"
      || strIncludes env.urlAfterTimeout "challenge" then
    if env.challengeWaitOk then
      (.authenticated .challengeResolution,
       [.credentialLoginAttempt, .challengeDetected, .interactiveChallenge], true)
    else
      (.challengeTimeout,
       [.credentialLoginAttempt, .challengeDetected, .interactiveChallenge], true)
  else
    (.loginFailed, [.credentialLoginAttempt], false)

/-- The $RUN_AUTH handler of linkedin-auth index.ts (lines 44-103).  Path 1
restores saved cookies when loadCookies returns a non-null array and
validateSession accepts the restored session; it publishes the page and the
authenticated flag and returns without writing the jar.  Path 2 runs the
credential login when both username and password are non-empty, saving the
jar and publishing on success and propagating the thrown error otherwise.
Path 3 relaunches a headed browser for a manual login, saving the jar and
publishing on success and throwing the manual-timeout error on timeout. -/
def runAuthHandler (cfg : AuthConfig) (env : AuthEnv) : AuthResult :=
  let hasCredentials := 0 < cfg.username.length && 0 < cfg.password.length
  let restoreSteps : List AuthStep :=
    match loadCookiesAuthFeature env.cookieFile with
    | some _ => if env.sessionValid then [.cookieRestoreAttempt]
                else [.cookieRestoreAttempt, .cookiesRejected]
    | none => []
  match loadCookiesAuthFeature env.cookieFile with
  | some _ =>
    if env.sessionValid then
      { outcome := .authenticated .cookieRestore, savedJar := none,
        publishedPage := true, publishedAuthenticated := true,
        relaunchedHeaded := false, visited := restoreSteps }
    else runAuthFallback env hasCredentials restoreSteps
  | none => runAuthFallback env hasCredentials restoreSteps
where
  /-- Paths 2 and 3 of the handler, shared by both cookie-file outcomes. -/
  runAuthFallback (env : AuthEnv) (hasCredentials : Bool)
      (restoreSteps : List AuthStep) : AuthResult :=
    if hasCredentials then
      match loginWithCredentialsRun env with
      | (.authenticated p, steps, headed) =>
          { outcome := .authenticated p, savedJar := some env.contextCookies,
            publishedPage := true, publishedAuthenticated := true,
            relaunchedHeaded := headed, visited := restoreSteps ++ steps }
      | (errOutcome, steps, headed) =>
          { outcome := errOutcome, savedJar := none,
            publishedPage := false, publishedAuthenticated := false,
            relaunchedHeaded := headed, visited := restoreSteps ++ steps }
    else
      if env.manualWaitOk then
        { outcome := .authenticated .manualLogin, savedJar := some env.contextCookies,
          publishedPage := true, publishedAuthenticated := true,
          relaunchedHeaded := true, visited := restoreSteps ++ [.interactiveManualLogin] }
      else
        { outcome := .manualLoginTimeout, savedJar := none,
          publishedPage := false, publishedAuthenticated := false,
          relaunchedHeaded := true, visited := restoreSteps ++ [.interactiveManualLogin] }

/-- The category tag an error message carries, if any. -/
def tagOf (e : String) : Option String :=
  if taggedWith "content: " e then some "content"
  else if taggedWith "audience: " e then some "audience"
  else if taggedWith "demographics: " e then some "demographics"
  else none

/-- A sample scraped content record, used to instantiate outcomes. -/
def sampleContent : ContentAnalytics :=
  { impressions := [], engagements := [], totalImpressions := some 0,
    totalEngagements := some 0, engagementRate := some 0, capturedAt := "t" }

/-- A sample scraped audience record. -/
def sampleAudience : AudienceAnalytics :=
  { followerGrowth := [], lifetimeFollowerCount := 0, capturedAt := "t" }

/-- A sample scraped demographics record. -/
def sampleDemographics : DemographicAnalytics :=
  { industries := [], jobTitles := [], locations := [], functions := [],
    seniorities := [], capturedAt := "t" }

@[simp]
lemma chPrefix_append (l m : List Char) : chPrefix l (l ++ m) = true := by
  induction l with
  | nil => rfl
  | cons c cs ih => simp [chPrefix, ih]

@[simp]
lemma taggedWith_append_self (t r : String) : taggedWith t (t ++ r) = true := by
  unfold taggedWith
  rw [String.data_append]
  exact chPrefix_append t.data r.data

lemma chPrefix_ne_head {c d : Char} (h : (c == d) = false) (cs ds : List Char) :
    chPrefix (c :: cs) (d :: ds) = false := by
  simp [chPrefix, h]

lemma taggedWith_ne {t u : String} (r : String) {c d : Char} {cs ds : List Char}
    (ht : t.data = c :: cs) (hu : u.data = d :: ds) (h : (c == d) = false) :
    taggedWith t (u ++ r) = false := by
  unfold taggedWith
  rw [String.data_append, ht, hu, List.cons_append]
  exact chPrefix_ne_head h cs (ds ++ r.data)

@[simp]
lemma tagged_con_aud (r : String) : taggedWith "content: " ("audience: " ++ r) = false :=
  taggedWith_ne r rfl rfl (by decide)

@[simp]
lemma tagged_con_dem (r : String) : taggedWith "content: " ("demographics: " ++ r) = false :=
  taggedWith_ne r rfl rfl (by decide)

@[simp]
lemma tagged_aud_con (r : String) : taggedWith "audience: " ("content: " ++ r) = false :=
  taggedWith_ne r rfl rfl (by decide)

@[simp]
lemma tagged_aud_dem (r : String) : taggedWith "audience: " ("demographics: " ++ r) = false :=
  taggedWith_ne r rfl rfl (by decide)

@[simp]
lemma tagged_dem_con (r : String) : taggedWith "demographics: " ("content: " ++ r) = false :=
  taggedWith_ne r rfl rfl (by decide)

@[simp]
lemma tagged_dem_aud (r : String) : taggedWith "demographics: " ("audience: " ++ r) = false :=
  taggedWith_ne r rfl rfl (by decide)

/-- C1: for every outcome triple of the three concurrent category tasks, the
joined result carries each category's value exactly when its task fulfilled
and null when it rejected, and the errors list holds exactly one entry
tagged with each failed category's name; in particular the outcome
(success, failure, success) yields one null category, one error entry
tagged with it, and the other two categories populated — one category's
failure never cancels the others. -/
theorem scrapeAnalytics_partial_failure_tolerance
    (c : Settled ContentAnalytics) (a : Settled AudienceAnalytics)
    (d : Settled DemographicAnalytics) (sAt : String) :
    ((scrapeLinkedInAnalyticsJoin c a d sAt).content = c.toOption) ∧
    ((scrapeLinkedInAnalyticsJoin c a d sAt).audience = a.toOption) ∧
    ((scrapeLinkedInAnalyticsJoin c a d sAt).demographics = d.toOption) ∧
    ((scrapeLinkedInAnalyticsJoin c a d sAt).errors.countP (taggedWith "content: ")
        = if c.isRejected then 1 else 0) ∧
    ((scrapeLinkedInAnalyticsJoin c a d sAt).errors.countP (taggedWith "audience: ")
        = if a.isRejected then 1 else 0) ∧
    ((scrapeLinkedInAnalyticsJoin c a d sAt).errors.countP (taggedWith "demographics: ")
        = if d.isRejected then 1 else 0) ∧
    (∀ cv reason dv, c = .fulfilled cv → a = .rejected reason → d = .fulfilled dv →
      (scrapeLinkedInAnalyticsJoin c a d sAt).content = some cv ∧
      (scrapeLinkedInAnalyticsJoin c a d sAt).audience = none ∧
      (scrapeLinkedInAnalyticsJoin c a d sAt).demographics = some dv ∧
      (scrapeLinkedInAnalyticsJoin c a d sAt).errors = ["audience: " ++ reason]) := by
  cases c <;> cases a <;> cases d <;>
    simp [scrapeLinkedInAnalyticsJoin, Settled.toOption, Settled.isRejected,
      List.countP_append, List.countP_cons]

/-- Witness for C1 at the outcome (success, failure, success). -/
theorem scrapeAnalytics_partial_failure_tolerance_witness :
    (scrapeLinkedInAnalyticsJoin (.fulfilled sampleContent) (.rejected "boom")
        (.fulfilled sampleDemographics) "t").content = some sampleContent ∧
    (scrapeLinkedInAnalyticsJoin (.fulfilled sampleContent) (.rejected "boom")
        (.fulfilled sampleDemographics) "t").audience = none ∧
    (scrapeLinkedInAnalyticsJoin (.fulfilled sampleContent) (.rejected "boom")
        (.fulfilled sampleDemographics) "t").demographics = some sampleDemographics ∧
    (scrapeLinkedInAnalyticsJoin (.fulfilled sampleContent) (.rejected "boom")
        (.fulfilled sampleDemographics) "t").errors = ["audience: " ++ "boom"] :=
  (scrapeAnalytics_partial_failure_tolerance (.fulfilled sampleContent) (.rejected "boom")
      (.fulfilled sampleDemographics) "t").2.2.2.2.2.2
    sampleContent "boom" sampleDemographics rfl rfl rfl

/-- C10: in every joined result the error entries appear in the fixed
category order content, audience, demographics (their tags form a sublist of
that order, whatever the settle outcomes are — the join reads the three
outcomes positionally, so the completion order of the tasks cannot influence
it), and a category is null exactly when an entry tagged with its name is
present in the errors list. -/
theorem scrapeAnalytics_errors_order_and_null_iff
    (c : Settled ContentAnalytics) (a : Settled AudienceAnalytics)
    (d : Settled DemographicAnalytics) (sAt : String) :
    ((scrapeLinkedInAnalyticsJoin c a d sAt).errors.map tagOf).Sublist
        [some "content", some "audience", some "demographics"] ∧
    ((scrapeLinkedInAnalyticsJoin c a d sAt).content = none ↔
      ∃ e ∈ (scrapeLinkedInAnalyticsJoin c a d sAt).errors,
        taggedWith "content: " e = true) ∧
    ((scrapeLinkedInAnalyticsJoin c a d sAt).audience = none ↔
      ∃ e ∈ (scrapeLinkedInAnalyticsJoin c a d sAt).errors,
        taggedWith "audience: " e = true) ∧
    ((scrapeLinkedInAnalyticsJoin c a d sAt).demographics = none ↔
      ∃ e ∈ (scrapeLinkedInAnalyticsJoin c a d sAt).errors,
        taggedWith "demographics: " e = true) := by
  cases c <;> cases a <;> cases d <;>
    simp [scrapeLinkedInAnalyticsJoin, Settled.toOption, tagOf]

lemma wrap_data (t : String) : ("\"" ++ t ++ "\"").data = '"' :: (t.data ++ ['"']) := by
  rw [String.data_append, String.data_append]
  rfl

lemma csrfQuoted_wrap (t : String) (hnl : t.data.all (fun c => !jsLineTerm c) = true) :
    csrfQuoted (("\"" ++ t ++ "\"").data) = true := by
  rw [wrap_data]
  unfold csrfQuoted
  simp [List.dropLast_concat, hnl]
  exact List.getLast?_concat ('"' :: t.data)

lemma extractCsrfToken_wrap (t : String) (hnl : t.data.all (fun c => !jsLineTerm c) = true) :
    extractCsrfToken ("\"" ++ t ++ "\"") = t := by
  unfold extractCsrfToken
  rw [csrfQuoted_wrap t hnl]
  simp [wrap_data, List.dropLast_concat]

lemma extractCsrfToken_nomatch (t : String) (hq : csrfQuoted t.data = false) :
    extractCsrfToken t = t := by
  unfold extractCsrfToken
  rw [hq]
  simp

/-- C6: extractCsrfToken maps a token wrapped in one pair of surrounding
double quotes to the unwrapped value, maps an already-unwrapped token (one
the quote pattern does not match) to itself, and maps the empty string to
itself; hence applying it twice equals applying it once on these inputs.
The token is assumed free of line terminators, which the dot of the source
pattern cannot match. -/
theorem extractCsrfToken_strips_once (t : String)
    (hq : csrfQuoted t.data = false)
    (hnl : t.data.all (fun c => !jsLineTerm c) = true) :
    extractCsrfToken ("\"" ++ t ++ "\"") = t ∧
    extractCsrfToken t = t ∧
    extractCsrfToken "" = "" ∧
    extractCsrfToken (extractCsrfToken ("\"" ++ t ++ "\"")) =
      extractCsrfToken ("\"" ++ t ++ "\"") ∧
    extractCsrfToken (extractCsrfToken t) = extractCsrfToken t := by
  have hw := extractCsrfToken_wrap t hnl
  have hn := extractCsrfToken_nomatch t hq
  refine ⟨hw, hn, rfl, ?_, ?_⟩
  · rw [hw, hn]
  · rw [hn, hn]

/-- Witness for C6 at the quoted and unquoted tokens of the auth tests. -/
theorem extractCsrfToken_strips_once_witness :
    extractCsrfToken ("\"" ++ "ajax:123456789" ++ "\"") = "ajax:123456789" ∧
    extractCsrfToken "ajax:123456789" = "ajax:123456789" ∧
    extractCsrfToken "" = "" ∧
    extractCsrfToken (extractCsrfToken ("\"" ++ "ajax:123456789" ++ "\"")) =
      extractCsrfToken ("\"" ++ "ajax:123456789" ++ "\"") ∧
    extractCsrfToken (extractCsrfToken "ajax:123456789") =
      extractCsrfToken "ajax:123456789" :=
  extractCsrfToken_strips_once "ajax:123456789" (by decide) (by decide)

lemma nat_if_lt_eq_max (a v : ℕ) : (if a < v then v else a) = max a v := by
  rcases Nat.lt_or_ge a v with h | h
  · simp [h, Nat.max_eq_right (Nat.le_of_lt h)]
  · simp [Nat.not_lt.mpr h, Nat.max_eq_left h]

lemma extractLifetime_eq_foldl_max (ts : List String) (acc : ℕ) :
    ts.foldl
      (fun largest rawText =>
        let text := jsTrim rawText
        if isFormattedInt text then
          match jsParseIntDec (stripCommas text) with
          | some value => if largest < value then value else largest
          | none => largest
        else largest)
      acc = (lifetimeCandidates ts).foldl max acc := by
  induction ts generalizing acc with
  | nil => rfl
  | cons t ts ih =>
      simp only [List.foldl_cons, lifetimeCandidates, List.filterMap_cons]
      by_cases hf : isFormattedInt (jsTrim t)
      · cases hv : jsParseIntDec (stripCommas (jsTrim t)) with
        | none => simpa [hf, hv, lifetimeCandidates] using ih acc
        | some v =>
            simpa [hf, hv, lifetimeCandidates, nat_if_lt_eq_max] using ih (max acc v)
      · simpa [hf, lifetimeCandidates] using ih acc

lemma le_foldl_max (l : List ℕ) (acc : ℕ) : acc ≤ l.foldl max acc := by
  induction l generalizing acc with
  | nil => exact Nat.le_refl _
  | cons a l ih => exact Nat.le_trans (Nat.le_max_left acc a) (ih (max acc a))

lemma foldl_max_le_result (l : List ℕ) (acc : ℕ) : ∀ v ∈ l, v ≤ l.foldl max acc := by
  induction l generalizing acc with
  | nil => intro v hv; cases hv
  | cons a l ih =>
      intro v hv
      rcases List.mem_cons.mp hv with rfl | hv
      · exact Nat.le_trans (Nat.le_max_right acc v) (le_foldl_max l (max acc v))
      · exact ih (max acc a) v hv

lemma foldl_max_mem_or_acc (l : List ℕ) (acc : ℕ) :
    l.foldl max acc = acc ∨ l.foldl max acc ∈ l := by
  induction l generalizing acc with
  | nil => exact Or.inl rfl
  | cons a l ih =>
      rcases ih (max acc a) with h | h
      · rcases max_choice acc a with hm | hm
        · left
          show List.foldl max (max acc a) l = acc
          rw [hm] at h ⊢
          exact h
        · right
          show List.foldl max (max acc a) l ∈ a :: l
          rw [hm] at h ⊢
          rw [h]
          exact List.mem_cons_self a l
      · exact Or.inr (List.mem_cons_of_mem a h)

/-- C5: the audience extractor's lifetime follower count is the largest
value among the paragraph-like text nodes whose trimmed text is purely a
formatted integer, each parsed by stripping the group separators (an upper
bound of the candidate set that is itself a candidate), and 0 when no such
node exists. -/
theorem extractLifetimeFollowerCount_largest (ts : List String) :
    (∀ v ∈ lifetimeCandidates ts, v ≤ extractLifetimeFollowerCount ts) ∧
    (lifetimeCandidates ts ≠ [] →
      extractLifetimeFollowerCount ts ∈ lifetimeCandidates ts) ∧
    (lifetimeCandidates ts = [] → extractLifetimeFollowerCount ts = 0) := by
  have he : extractLifetimeFollowerCount ts = (lifetimeCandidates ts).foldl max 0 := by
    unfold extractLifetimeFollowerCount
    exact extractLifetime_eq_foldl_max ts 0
  refine ⟨?_, ?_, ?_⟩
  · rw [he]
    exact foldl_max_le_result _ 0
  · intro hne
    rw [he]
    obtain ⟨v, rest, hvr⟩ : ∃ v rest, lifetimeCandidates ts = v :: rest := by
      cases hc : lifetimeCandidates ts with
      | nil => exact absurd hc hne
      | cons v rest => exact ⟨v, rest, rfl⟩
    rw [hvr]
    show List.foldl max (max 0 v) rest ∈ v :: rest
    rw [Nat.zero_max]
    rcases foldl_max_mem_or_acc rest v with h | h
    · rw [h]
      exact List.mem_cons_self v rest
    · exact List.mem_cons_of_mem v h
  · intro hnil
    rw [he, hnil]
    rfl

/-- Witness for C5: a page with texts "1,746", "hello" and "12" reports a
candidate (in fact 1746), and a page whose only numeric-looking text is all
commas (parsing to NaN) reports 0. -/
theorem extractLifetimeFollowerCount_largest_witness :
    extractLifetimeFollowerCount ["1,746", "hello", "12"] ∈
      lifetimeCandidates ["1,746", "hello", "12"] ∧
    extractLifetimeFollowerCount [",,,"] = 0 :=
  ⟨(extractLifetimeFollowerCount_largest ["1,746", "hello", "12"]).2.1 (by decide),
   (extractLifetimeFollowerCount_largest [",,,"]).2.2 (by decide)⟩

/-- C7: in every combined ContentAnalytics the totals are the reduce-sums of
the two daily series, the engagement rate is engagements over impressions
times 100 rounded to two decimal places whenever the impressions total is a
positive number, and it is 0 when the impressions total is 0 (the division
never runs on a zero denominator). -/
theorem contentAnalytics_engagementRate_spec
    (imps engs : List DailyMetric) (cAt : String) :
    ((scrapeContentAnalyticsCombine imps engs cAt).totalImpressions = jsSumValues imps) ∧
    ((scrapeContentAnalyticsCombine imps engs cAt).totalEngagements = jsSumValues engs) ∧
    (∀ i : ℕ, jsSumValues imps = some i → 0 < i →
      (scrapeContentAnalyticsCombine imps engs cAt).engagementRate =
        roundTo2 ((jsDivTotals (jsSumValues engs) (jsSumValues imps)).map
          (fun q => q * 100))) ∧
    (jsSumValues imps = some 0 →
      (scrapeContentAnalyticsCombine imps engs cAt).engagementRate = some 0) := by
  refine ⟨rfl, rfl, ?_, ?_⟩
  · intro i hi hpos
    cases he : jsSumValues engs with
    | none =>
        simp [scrapeContentAnalyticsCombine, roundTo2, jsMathRound, jsDivTotals,
          jsGtZero, hi, he, hpos]
    | some ev =>
        have harg : (ev : ℚ) / (i : ℚ) * 100 * 100 = (ev : ℚ) / (i : ℚ) * 10000 := by
          ring
        simp [scrapeContentAnalyticsCombine, roundTo2, jsMathRound, jsDivTotals,
          jsGtZero, hi, he, hpos, harg]
  · intro hz
    simp [scrapeContentAnalyticsCombine, jsGtZero, hz]

/-- Witness for C7 with impression values 100 and 200 and engagement values
1 and 2: the totals are 300 and 3, and the rate is 1/100 rounded from 1
percent. -/
theorem contentAnalytics_engagementRate_spec_witness :
    (scrapeContentAnalyticsCombine
        [⟨"d1", some 100⟩, ⟨"d2", some 200⟩] [⟨"d1", some 1⟩, ⟨"d2", some 2⟩]
        "t").totalImpressions = jsSumValues [⟨"d1", some 100⟩, ⟨"d2", some 200⟩] ∧
    (scrapeContentAnalyticsCombine
        [⟨"d1", some 100⟩, ⟨"d2", some 200⟩] [⟨"d1", some 1⟩, ⟨"d2", some 2⟩]
        "t").engagementRate =
      roundTo2 ((jsDivTotals (jsSumValues [⟨"d1", some 1⟩, ⟨"d2", some 2⟩])
        (jsSumValues [⟨"d1", some 100⟩, ⟨"d2", some 200⟩])).map (fun q => q * 100)) :=
  ⟨(contentAnalytics_engagementRate_spec
      [⟨"d1", some 100⟩, ⟨"d2", some 200⟩] [⟨"d1", some 1⟩, ⟨"d2", some 2⟩] "t").1,
   (contentAnalytics_engagementRate_spec
      [⟨"d1", some 100⟩, ⟨"d2", some 200⟩] [⟨"d1", some 1⟩, ⟨"d2", some 2⟩] "t").2.2.1
     300 (by decide) (by decide)⟩

/-- C8: on a rendered page whose accessibility labels are exactly
"1. Monday, Jan 1, 2024, Impressions, 100" and
"2. Tuesday, Jan 2, 2024, Impressions, 200", the content extractor's
impressions series is the two dated points with values 100 and 200 (labels
are matched against the index, weekday, date, metric, value pattern and
attributed to Impressions because that name occurs verbatim), and the
combined totalImpressions is 300 whatever the engagements series is. -/
theorem extractChartData_sample_page :
    extractChartData
        ["1. Monday, Jan 1, 2024, Impressions, 100",
         "2. Tuesday, Jan 2, 2024, Impressions, 200"] "Impressions" =
      [{ date := "2024-01-01", value := some 100 },
       { date := "2024-01-02", value := some 200 }] ∧
    (∀ (engs : List DailyMetric) (cAt : String),
      (scrapeContentAnalyticsCombine
          (extractChartData
            ["1. Monday, Jan 1, 2024, Impressions, 100",
             "2. Tuesday, Jan 2, 2024, Impressions, 200"] "Impressions")
          engs cAt).totalImpressions = some 300) := by
  constructor
  · decide
  · intro engs cAt
    rfl

/-- C9: inside a recognised section, a line that is neither a section header
nor a stop line and whose immediately following line matches the percentage
pattern is recorded as a label-percentage pair and the scan resumes two
lines further on; such a line whose successor does not match the pattern
advances the scan by exactly one line, leaving the collected sections and
the current section unchanged, so one malformed line cannot desynchronise
the parsing of the rest of the section. -/
theorem demographicScan_step (sectionHeaders : List (String × String))
    (stopKeywords : List String)
    (sections : List (String × List DemographicEntry)) (k : String)
    (line next : String) (rest : List String)
    (hhdr : matchSection sectionHeaders line = none)
    (hstop : isStopLine stopKeywords line = false) :
    (∀ body, pctMatch next = some body → hasKey sections k = true →
      scanLoop sectionHeaders stopKeywords sections (some k) (line :: next :: rest) =
        scanLoop sectionHeaders stopKeywords
          (pushEntry sections k
            { label := line, count := 0, percentage := jsParseFloat body })
          (some k) rest) ∧
    (pctMatch next = none →
      scanLoop sectionHeaders stopKeywords sections (some k) (line :: next :: rest) =
        scanLoop sectionHeaders stopKeywords sections (some k) (next :: rest)) := by
  constructor
  · intro body hpct hkey
    conv_lhs => rw [scanLoop]
    simp [hhdr, hstop, hpct, hkey]
  · intro hpct
    conv_lhs => rw [scanLoop]
    simp [hhdr, hstop, hpct]

/-- Witness for C9 on the source's section table: inside jobTitles the pair
Engineer, 19.2 percent is recorded and the scan moves past both lines, and
a miss (successor "oops") advances one line with the sections unchanged. -/
theorem demographicScan_step_witness :
    (scanLoop sectionHeadersSrc stopKeywordsSrc (initSections sectionHeadersSrc)
        (some "jobTitles") ["Engineer", "19.2%"] =
      scanLoop sectionHeadersSrc stopKeywordsSrc
        (pushEntry (initSections sectionHeadersSrc) "jobTitles"
          { label := "Engineer", count := 0, percentage := jsParseFloat "19.2" })
        (some "jobTitles") []) ∧
    (scanLoop sectionHeadersSrc stopKeywordsSrc (initSections sectionHeadersSrc)
        (some "jobTitles") ["Engineer", "oops"] =
      scanLoop sectionHeadersSrc stopKeywordsSrc (initSections sectionHeadersSrc)
        (some "jobTitles") ["oops"]) :=
  ⟨(demographicScan_step sectionHeadersSrc stopKeywordsSrc
      (initSections sectionHeadersSrc) "jobTitles" "Engineer" "19.2%" []
      (by decide) (by decide)).1 "19.2" (by decide) (by decide),
   (demographicScan_step sectionHeadersSrc stopKeywordsSrc
      (initSections sectionHeadersSrc) "jobTitles" "Engineer" "oops" []
      (by decide) (by decide)).2 (by decide)⟩

/-- C3: whenever the stored cookie bundle loads but the restored session
fails validation and either credential is empty, the handler takes the
interactive manual-login path — relaunching a headed browser and waiting
for the operator — and neither the login-failed error nor any
challenge-detected transition occurs; the only outcomes are authentication
through the manual path or the manual-login timeout. -/
theorem auth_no_credentials_manual_path (cfg : AuthConfig) (env : AuthEnv)
    (cs : List Json) (hload : loadCookiesAuthFeature env.cookieFile = some cs)
    (hvalid : env.sessionValid = false)
    (hnc : cfg.username = "" ∨ cfg.password = "") :
    AuthStep.interactiveManualLogin ∈ (runAuthHandler cfg env).visited ∧
    AuthStep.challengeDetected ∉ (runAuthHandler cfg env).visited ∧
    (runAuthHandler cfg env).relaunchedHeaded = true ∧
    (runAuthHandler cfg env).outcome ≠ .loginFailed ∧
    (runAuthHandler cfg env).outcome ≠ .challengeTimeout ∧
    ((runAuthHandler cfg env).outcome = .authenticated .manualLogin ∨
      (runAuthHandler cfg env).outcome = .manualLoginTimeout) := by
  have hcred : (0 < cfg.username.length && 0 < cfg.password.length) = false := by
    rcases hnc with h | h <;> simp [h]
  cases hm : env.manualWaitOk <;>
    simp [runAuthHandler, runAuthHandler.runAuthFallback, hload, hvalid, hcred, hm]

/-- Witness for C3: a present two-cookie file whose session is rejected and
an empty username. -/
theorem auth_no_credentials_manual_path_witness :
    AuthStep.interactiveManualLogin ∈
      (runAuthHandler { username := "", password := "secret" }
        { cookieFile := .parsed (.jarr [.jnull]), sessionValid := false,
          credentialWaitOk := false, urlAfterTimeout := "",
          challengeWaitOk := false, manualWaitOk := true,
          contextCookies := [] }).visited ∧
    AuthStep.challengeDetected ∉
      (runAuthHandler { username := "", password := "secret" }
        { cookieFile := .parsed (.jarr [.jnull]), sessionValid := false,
          credentialWaitOk := false, urlAfterTimeout := "",
          challengeWaitOk := false, manualWaitOk := true,
          contextCookies := [] }).visited ∧
    (runAuthHandler { username := "", password := "secret" }
        { cookieFile := .parsed (.jarr [.jnull]), sessionValid := false,
          credentialWaitOk := false, urlAfterTimeout := "",
          challengeWaitOk := false, manualWaitOk := true,
          contextCookies := [] }).relaunchedHeaded = true ∧
    (runAuthHandler { username := "", password := "secret" }
        { cookieFile := .parsed (.jarr [.jnull]), sessionValid := false,
          credentialWaitOk := false, urlAfterTimeout := "",
          challengeWaitOk := false, manualWaitOk := true,
          contextCookies := [] }).outcome ≠ .loginFailed ∧
    (runAuthHandler { username := "", password := "secret" }
        { cookieFile := .parsed (.jarr [.jnull]), sessionValid := false,
          credentialWaitOk := false, urlAfterTimeout := "",
          challengeWaitOk := false, manualWaitOk := true,
          contextCookies := [] }).outcome ≠ .challengeTimeout ∧
    ((runAuthHandler { username := "", password := "secret" }
        { cookieFile := .parsed (.jarr [.jnull]), sessionValid := false,
          credentialWaitOk := false, urlAfterTimeout := "",
          challengeWaitOk := false, manualWaitOk := true,
          contextCookies := [] }).outcome = .authenticated .manualLogin ∨
      (runAuthHandler { username := "", password := "secret" }
        { cookieFile := .parsed (.jarr [.jnull]), sessionValid := false,
          credentialWaitOk := false, urlAfterTimeout := "",
          challengeWaitOk := false, manualWaitOk := true,
          contextCookies := [] }).outcome = .manualLoginTimeout) :=
  auth_no_credentials_manual_path { username := "", password := "secret" }
    { cookieFile := .parsed (.jarr [.jnull]), sessionValid := false,
      credentialWaitOk := false, urlAfterTimeout := "",
      challengeWaitOk := false, manualWaitOk := true, contextCookies := [] }
    [.jnull] rfl rfl (Or.inl rfl)

/-- Counterexample to C2: a run whose saved cookies restore a valid session
reaches Authenticated through the cookie-restore path and publishes the page
and the flag, yet writes nothing through the cookie-save path — the claim
that every successful transition into Authenticated persists the jar fails
on the restore path. -/
theorem auth_cookie_restore_skips_persist :
    (runAuthHandler { username := "user", password := "pw" }
        { cookieFile := .parsed (.jarr [.jnull]), sessionValid := true,
          credentialWaitOk := true, urlAfterTimeout := "", challengeWaitOk := true,
          manualWaitOk := true,
          contextCookies := [{ name := "li_at", value := "tok" }] }).outcome =
      .authenticated .cookieRestore ∧
    (runAuthHandler { username := "user", password := "pw" }
        { cookieFile := .parsed (.jarr [.jnull]), sessionValid := true,
          credentialWaitOk := true, urlAfterTimeout := "", challengeWaitOk := true,
          manualWaitOk := true,
          contextCookies := [{ name := "li_at", value := "tok" }] }).publishedAuthenticated
      = true ∧
    (runAuthHandler { username := "user", password := "pw" }
        { cookieFile := .parsed (.jarr [.jnull]), sessionValid := true,
          credentialWaitOk := true, urlAfterTimeout := "", challengeWaitOk := true,
          manualWaitOk := true,
          contextCookies := [{ name := "li_at", value := "tok" }] }).savedJar = none :=
  ⟨rfl, rfl, rfl⟩

/-- C2 as amended: every successful transition into Authenticated publishes
the page handle and the authenticated flag, and persists the full current
cookie jar through the save path on the credential-login,
challenge-resolution and manual-login paths — but not on the cookie-restore
path, which publishes without rewriting the jar. -/
theorem auth_authenticated_publishes_and_persists (cfg : AuthConfig) (env : AuthEnv)
    (p : AuthPath) (h : (runAuthHandler cfg env).outcome = .authenticated p) :
    (runAuthHandler cfg env).publishedPage = true ∧
    (runAuthHandler cfg env).publishedAuthenticated = true ∧
    (p ≠ .cookieRestore → (runAuthHandler cfg env).savedJar = some env.contextCookies) ∧
    (p = .cookieRestore → (runAuthHandler cfg env).savedJar = none) := by
  cases hl : loadCookiesAuthFeature env.cookieFile <;>
    cases hv : env.sessionValid <;>
    cases hcb : (0 < cfg.username.length && 0 < cfg.password.length) <;>
    cases hcw : env.credentialWaitOk <;>
    cases hurl : (strIncludes env.urlAfterTimeout "checkpoint"
      || strIncludes env.urlAfterTimeout "challenge") <;>
    cases hch : env.challengeWaitOk <;>
    cases hmw : env.manualWaitOk <;>
    simp [runAuthHandler, runAuthHandler.runAuthFallback, loginWithCredentialsRun,
      hl, hv, hcb, hcw, hurl, hch, hmw] at h ⊢ <;>
    (try subst h) <;> simp

/-- Witness for the amended C2 on a credential login that reaches the feed:
the jar is saved and both context values are published. -/
theorem auth_authenticated_publishes_and_persists_witness :
    (runAuthHandler { username := "user", password := "pw" }
        { cookieFile := .absent, sessionValid := false, credentialWaitOk := true,
          urlAfterTimeout := "", challengeWaitOk := false, manualWaitOk := false,
          contextCookies := [{ name := "li_at", value := "tok" }] }).publishedPage = true ∧
    (runAuthHandler { username := "user", password := "pw" }
        { cookieFile := .absent, sessionValid := false, credentialWaitOk := true,
          urlAfterTimeout := "", challengeWaitOk := false, manualWaitOk := false,
          contextCookies := [{ name := "li_at", value := "tok" }] }).publishedAuthenticated
      = true ∧
    (AuthPath.credentialLogin ≠ AuthPath.cookieRestore →
      (runAuthHandler { username := "user", password := "pw" }
          { cookieFile := .absent, sessionValid := false, credentialWaitOk := true,
            urlAfterTimeout := "", challengeWaitOk := false, manualWaitOk := false,
            contextCookies := [{ name := "li_at", value := "tok" }] }).savedJar =
        some [{ name := "li_at", value := "tok" }]) ∧
    (AuthPath.credentialLogin = AuthPath.cookieRestore →
      (runAuthHandler { username := "user", password := "pw" }
          { cookieFile := .absent, sessionValid := false, credentialWaitOk := true,
            urlAfterTimeout := "", challengeWaitOk := false, manualWaitOk := false,
            contextCookies := [{ name := "li_at", value := "tok" }] }).savedJar = none) :=
  auth_authenticated_publishes_and_persists { username := "user", password := "pw" }
    { cookieFile := .absent, sessionValid := false, credentialWaitOk := true,
      urlAfterTimeout := "", challengeWaitOk := false, manualWaitOk := false,
      contextCookies := [{ name := "li_at", value := "tok" }] }
    .credentialLogin rfl

lemma simpleCookiesParse_li_at_pos (j : Json) (ck : LinkedInCookies)
    (h : simpleCookiesParse j = some ck) : 0 < ck.li_at.length := by
  cases j with
  | jobj fields =>
      simp only [simpleCookiesParse] at h
      cases hli : reqStringField fields "li_at" with
      | none => rw [hli] at h; simp at h
      | some li =>
          rw [hli] at h
          by_cases hlen : 1 ≤ li.length
          · cases hjs : optStringField fields "JSESSIONID" with
            | none => simp [hlen, hjs] at h
            | some js =>
                cases hlp : optStringField fields "liap" with
                | none => simp [hlen, hjs, hlp] at h
                | some lp =>
                    cases hlr : optStringField fields "li_rm" with
                    | none => simp [hlen, hjs, hlp, hlr] at h
                    | some lr =>
                        simp [hlen, hjs, hlp, hlr] at h
                        subst h
                        exact hlen
          · simp [hlen] at h
  | jnull => simp [simpleCookiesParse] at h
  | jbool b => simp [simpleCookiesParse] at h
  | jnum q => simp [simpleCookiesParse] at h
  | jstr s => simp [simpleCookiesParse] at h
  | jarr elems => simp [simpleCookiesParse] at h

lemma obj_branch_ok {o : Option LinkedInCookies} {ck : LinkedInCookies}
    (hok : (match o with
            | some ck2 => Except.ok ck2
            | none => (Except.error CookieLoadError.objectValidationFailed :
                Except CookieLoadError LinkedInCookies)) = Except.ok ck) :
    o = some ck := by
  cases o with
  | none => simp at hok
  | some ck2 => simpa using hok

/-- C4: loadCookies classifies every cookie-file state as the source's four
throw sites do — not-found for an absent file, not-valid for unparseable
content, array-validation failure when some array entry breaks the cookie
schema, missing-required-token when a valid array lacks a li_at entry or
carries an empty one, object-validation failure when a non-array value
breaks the simple schema — and it succeeds exactly on parsed content whose
accepted shape carries a non-empty li_at, extracting that value; every
success returns a non-empty primary token. -/
theorem loadCookies_classification :
    (loadCookies .absent = .error .fileNotFound) ∧
    (loadCookies .unparseable = .error .invalidJson) ∧
    (∀ elems, elems.mapM pwCookieParse = none →
      loadCookies (.parsed (.jarr elems)) = .error .arrayValidationFailed) ∧
    (∀ elems data, elems.mapM pwCookieParse = some data →
      (mapGet (data.map (fun c => (c.name, c.value))) "li_at" = none →
        loadCookies (.parsed (.jarr elems)) = .error .missingLiAt) ∧
      (∀ v, mapGet (data.map (fun c => (c.name, c.value))) "li_at" = some v →
        (v.length = 0 → loadCookies (.parsed (.jarr elems)) = .error .missingLiAt) ∧
        (v.length ≠ 0 → ∃ ck, loadCookies (.parsed (.jarr elems)) = .ok ck ∧
          ck.li_at = v))) ∧
    (∀ j, (∀ elems, j ≠ .jarr elems) →
      (simpleCookiesParse j = none →
        loadCookies (.parsed j) = .error .objectValidationFailed) ∧
      (∀ ck, simpleCookiesParse j = some ck → loadCookies (.parsed j) = .ok ck)) ∧
    (∀ f ck, loadCookies f = .ok ck → (∃ j, f = .parsed j) ∧ 0 < ck.li_at.length) := by
  refine ⟨rfl, rfl, ?_, ?_, ?_, ?_⟩
  · intro elems hbad
    simp only [loadCookies, hbad]
  · intro elems data hdata
    refine ⟨?_, ?_⟩
    · intro hnone
      simp only [loadCookies, hdata, hnone]
    · intro v hv
      refine ⟨?_, ?_⟩
      · intro hz
        simp only [loadCookies, hdata, hv]
        simp [hz]
      · intro hnz
        refine ⟨⟨v, mapGet (data.map (fun c => (c.name, c.value))) "JSESSIONID",
          mapGet (data.map (fun c => (c.name, c.value))) "liap",
          mapGet (data.map (fun c => (c.name, c.value))) "li_rm"⟩, ?_, rfl⟩
        simp only [loadCookies, hdata, hv]
        simp [hnz]
  · intro j hne
    cases j with
    | jarr elems => exact absurd rfl (hne elems)
    | jnull =>
        exact ⟨fun hp => by simp only [loadCookies, hp],
          fun ck hp => by simp only [loadCookies, hp]⟩
    | jbool b =>
        exact ⟨fun hp => by simp only [loadCookies, hp],
          fun ck hp => by simp only [loadCookies, hp]⟩
    | jnum q =>
        exact ⟨fun hp => by simp only [loadCookies, hp],
          fun ck hp => by simp only [loadCookies, hp]⟩
    | jstr str =>
        exact ⟨fun hp => by simp only [loadCookies, hp],
          fun ck hp => by simp only [loadCookies, hp]⟩
    | jobj fields =>
        exact ⟨fun hp => by simp only [loadCookies, hp],
          fun ck hp => by simp only [loadCookies, hp]⟩
  · intro f ck hok
    cases f with
    | absent => simp [loadCookies] at hok
    | unparseable => simp [loadCookies] at hok
    | parsed j =>
        refine ⟨⟨j, rfl⟩, ?_⟩
        cases j with
        | jarr elems =>
            cases hdata : elems.mapM pwCookieParse with
            | none =>
                simp only [loadCookies, hdata] at hok
                simp at hok
            | some data =>
                cases hv : mapGet (data.map (fun c => (c.name, c.value))) "li_at" with
                | none =>
                    simp only [loadCookies, hdata, hv] at hok
                    simp at hok
                | some v =>
                    by_cases hz : v.length = 0
                    · simp only [loadCookies, hdata, hv] at hok
                      simp [hz] at hok
                    · simp only [loadCookies, hdata, hv] at hok
                      rw [if_neg hz] at hok
                      cases hok
                      simpa using Nat.pos_of_ne_zero hz
        | jnull =>
            exact simpleCookiesParse_li_at_pos Json.jnull ck
              (obj_branch_ok (by simpa only [loadCookies] using hok))
        | jbool b =>
            exact simpleCookiesParse_li_at_pos (Json.jbool b) ck
              (obj_branch_ok (by simpa only [loadCookies] using hok))
        | jnum q =>
            exact simpleCookiesParse_li_at_pos (Json.jnum q) ck
              (obj_branch_ok (by simpa only [loadCookies] using hok))
        | jstr str =>
            exact simpleCookiesParse_li_at_pos (Json.jstr str) ck
              (obj_branch_ok (by simpa only [loadCookies] using hok))
        | jobj fields =>
            exact simpleCookiesParse_li_at_pos (Json.jobj fields) ck
              (obj_branch_ok (by simpa only [loadCookies] using hok))

/-- Witness for C4: an absent file reports not-found; a one-entry Playwright
array carrying li_at loads and extracts the value; an array with only a lang
cookie fails with the missing-token error. -/
theorem loadCookies_classification_witness :
    loadCookies .absent = .error .fileNotFound ∧
    (∃ ck, loadCookies (.parsed (.jarr
        [.jobj [("name", .jstr "li_at"), ("value", .jstr "AQE")]])) = .ok ck ∧
      ck.li_at = "AQE") ∧
    loadCookies (.parsed (.jarr
        [.jobj [("name", .jstr "lang"), ("value", .jstr "en")]])) =
      .error .missingLiAt :=
  ⟨loadCookies_classification.1,
   ((loadCookies_classification.2.2.2.1
        [.jobj [("name", .jstr "li_at"), ("value", .jstr "AQE")]]
        [⟨"li_at", "AQE", none, none, none, none, none, none⟩] rfl).2
      "AQE" rfl).2 (by decide),
   (loadCookies_classification.2.2.2.1
        [.jobj [("name", .jstr "lang"), ("value", .jstr "en")]]
        [⟨"lang", "en", none, none, none, none, none, none⟩] rfl).1 rfl⟩

/-- Witness for C10 at the outcome (failure, success, failure): the tags read
content then demographics, in order, and the audience iff holds. -/
theorem scrapeAnalytics_errors_order_and_null_iff_witness :
    ((scrapeLinkedInAnalyticsJoin (.rejected "a") (.fulfilled sampleAudience)
        (.rejected "b") "t").errors.map tagOf).Sublist
      [some "content", some "audience", some "demographics"] ∧
    ((scrapeLinkedInAnalyticsJoin (.rejected "a") (.fulfilled sampleAudience)
        (.rejected "b") "t").audience = none ↔
      ∃ e ∈ (scrapeLinkedInAnalyticsJoin (.rejected "a") (.fulfilled sampleAudience)
        (.rejected "b") "t").errors, taggedWith "audience: " e = true) :=
  ⟨(scrapeAnalytics_errors_order_and_null_iff (.rejected "a") (.fulfilled sampleAudience)
      (.rejected "b") "t").1,
   (scrapeAnalytics_errors_order_and_null_iff (.rejected "a") (.fulfilled sampleAudience)
      (.rejected "b") "t").2.2.1⟩
